import Mathlib

/-!
Shallow embedding of the `nextgateway` repository: a stateless HTTP
reverse-proxy gateway implemented as several near-duplicate handler
variants.

Variant naming used throughout this development:
* `GwA`  — the first handler in `src/api/gateway.js` (lines 1-84).
* `GwB`  — the second handler in `src/api/gateway.js` (lines 85-208),
  the variant with the OPTIONS branch, the HEAD branch and the
  file-endpoint heuristic in its target computation.
* `P0`   — `src/unnamed/part_000`, the JSON-envelope variant.
* `P1`   — `src/unnamed/part_001`, the raw-passthrough variant with the
  OPTIONS and HEAD branches.

Headers are modelled as association lists of (name, value) strings,
bodies as lists of byte values (`List Nat`), and JavaScript's JSON
values as the inductive `JsValue` (numbers restricted to integers,
`\u` escapes and fractional/exponent number syntax not modelled; none
of the behaviours at issue involve them).
-/

/-- Byte sequences (request/response bodies). -/
abbrev ByteSeq := List Nat

/-- The `HOP_BY_HOP` set shared verbatim by GwA (gateway.js lines 9-12),
GwB (lines 96-99), P0 (part_000 lines 17-20) and P1 (part_001 lines
15-18): connection, keep-alive, proxy-authenticate, proxy-authorization,
te, trailers, transfer-encoding, upgrade, host. Note: `content-length`
is NOT in this set; the request path drops it by a separate explicit
check, the response path has no such check. -/
def hopByHop : List String :=
  ["connection", "keep-alive", "proxy-authenticate", "proxy-authorization",
   "te", "trailers", "transfer-encoding", "upgrade", "host"]

/-- JavaScript `toLowerCase` on an ASCII header name, implemented over
the character list so that it reduces definitionally (core
`String.toLower` is defined by well-founded recursion). -/
def jsToLower (s : String) : String := String.mk (s.data.map Char.toLower)

/-- JavaScript `toUpperCase`, implemented over the character list. -/
def jsToUpper (s : String) : String := String.mk (s.data.map Char.toUpper)

/-- Does the string end with a slash (`endsWith('/')` /
the `/\/$/` regex test)? -/
def endsWithSlash (s : String) : Bool :=
  match s.data.getLast? with
  | some c => c == '/'
  | none => false

/-- JavaScript `slice(0, -1)`: drop the final character. -/
def dropLastChar (s : String) : String := String.mk s.data.dropLast

/-- Does a header mapping contain a header whose lowercased name equals
`n` (`n` given already lowercased)? -/
def hasHeaderName (hs : List (String × String)) (n : String) : Bool :=
  hs.any (fun kv => jsToLower kv.1 == n)

/-- Request-side header sanitizer of gateway.js lines 36-44 (GwA; the
same loop appears at GwB lines 149-157 and P1 lines 76-83): copy every
inbound header except the `HOP_BY_HOP` names, `content-length` and
`host`, compared on the lowercased name. -/
def forwardHeadersGw (hs : List (String × String)) : List (String × String) :=
  hs.filter (fun kv =>
    !(hopByHop.contains (jsToLower kv.1) || jsToLower kv.1 == "content-length"
      || jsToLower kv.1 == "host"))

/-- Response-side header copy of gateway.js lines 64-71 (GwA; the same
loop appears at GwB lines 183-188, P1 lines 140-145 and in the envelope
`headers` field of part_000 lines 151-160): copy every upstream header
except the `HOP_BY_HOP` names. `content-length` is not filtered here. -/
def respHeadersGw (hs : List (String × String)) : List (String × String) :=
  hs.filter (fun kv => !(hopByHop.contains (jsToLower kv.1)))

/-- Is `p` a leading segment of `l`? -/
def leadsWith : List Char → List Char → Bool
  | [], _ => true
  | _ :: _, [] => false
  | p :: ps, c :: cs => p == c && leadsWith ps cs

/-- First occurrence split: `splitFirst pat s = some (pre, post)` when
`s = pre ++ pat ++ post` with `pre` shortest, `none` when `pat` does not
occur in `s`. Models `String.prototype.indexOf`-style search. -/
def splitFirst (pat : List Char) : List Char → Option (List Char × List Char)
  | [] => none
  | c :: cs =>
    if leadsWith pat (c :: cs) then some ([], (c :: cs).drop pat.length)
    else
      match splitFirst pat cs with
      | some (pre, post) => some (c :: pre, post)
      | none => none

/-- Models JavaScript `String.prototype.includes` (for non-empty search
strings, the only use in the repository: `'\x7bpath\x7d'` and `'?'`). -/
def containsSubstr (s pat : String) : Bool :=
  (splitFirst pat.data s.data).isSome

/-- The GetSubstitution expansion JavaScript applies to the replacement
string of `String.prototype.replace` with a string pattern (no capture
groups): `$$` inserts `$`, `$&` the matched substring, a dollar followed
by a backquote the portion before the match, `$` followed by an
apostrophe the portion after; any other `$` sequence is literal.
`m` is the matched substring, `pre`/`post` the text around the match. -/
def substExpand (m pre post : List Char) : List Char → List Char
  | [] => []
  | [c] => [c]
  | c :: d :: ds =>
    if c == '$' then
      if d == '$' then '$' :: substExpand m pre post ds
      else if d == '&' then m ++ substExpand m pre post ds
      else if d == Char.ofNat 96 then pre ++ substExpand m pre post ds
      else if d == Char.ofNat 39 then post ++ substExpand m pre post ds
      else c :: substExpand m pre post (d :: ds)
    else c :: substExpand m pre post (d :: ds)

/-- JavaScript `s.replace(pat, rep)` with a string pattern: replace the
first occurrence of `pat`, applying GetSubstitution to `rep`. -/
def jsReplaceL (s pat rep : List Char) : List Char :=
  match splitFirst pat s with
  | none => s
  | some (pre, post) => pre ++ substExpand pat pre post rep ++ post

/-- String wrapper for `jsReplaceL`. -/
def jsReplace (s pat rep : String) : String :=
  String.mk (jsReplaceL s.data pat.data rep.data)

/-- JavaScript `\w` character class (ASCII letters, digits, underscore). -/
def isWordChar (c : Char) : Bool := c.isAlpha || c.isDigit || c == '_'

/-- Count the leading `\w` characters of a character list and return the
remainder. -/
def wordRun : List Char → Nat × List Char
  | [] => (0, [])
  | c :: cs =>
    if isWordChar c then
      let r := wordRun cs
      (r.1 + 1, r.2)
    else (0, c :: cs)

/-- Does the regex fragment `\w\x7b2,4\x7d($|\?)` match right here (i.e.
immediately after a dot)? Equivalent to: the run of word characters
starting here has length 2 to 4 and is followed by end-of-string or a
question mark. -/
def dotMatch (cs : List Char) : Bool :=
  let r := wordRun cs
  decide (2 ≤ r.1) && decide (r.1 ≤ 4) &&
    (match r.2 with
     | [] => true
     | c :: _ => c == '?')

/-- Unanchored search for the gateway.js line 135 regex
`\.\w\x7b2,4\x7d($|\?)`: somewhere in the string a dot is followed by 2
to 4 word characters and then end-of-string or `?`. -/
def hasFileSuffix : List Char → Bool
  | [] => false
  | c :: cs => (c == '.' && dotMatch cs) || hasFileSuffix cs

/-- JavaScript `s.replace(/\/$/, '')`: strip one trailing slash. -/
def stripTrailingSlash (s : String) : String :=
  if endsWithSlash s then dropLastChar s else s

/-- Target computation of GwA (gateway.js lines 48-51): substitute
`\x7bpath\x7d` via `String.replace` when the template contains it,
otherwise strip one trailing slash (via `endsWith`/`slice`) and append
the inbound path+query. -/
def resolveTargetA (origin path : String) : String :=
  if containsSubstr origin "{path}" then jsReplace origin "{path}" path
  else if endsWithSlash origin then dropLastChar origin ++ path
  else origin ++ path

/-- Target computation of GwB (gateway.js lines 131-143): placeholder
substitution first; else, when the template matches the file-endpoint
regex or already contains `?`, use the template exactly; else strip a
trailing slash and append the inbound path+query. -/
def resolveTargetB (origin path : String) : String :=
  if containsSubstr origin "{path}" then jsReplace origin "{path}" path
  else if hasFileSuffix origin.data || containsSubstr origin "?" then origin
  else stripTrailingSlash origin ++ path

/-- Target computation shared by P0 (part_000 lines 61-69) and P1
(part_001 lines 66-73): placeholder substitution when present,
otherwise always strip a trailing slash and append the inbound
path+query — no file-endpoint heuristic. -/
def resolveTargetP01 (origin path : String) : String :=
  if containsSubstr origin "{path}" then jsReplace origin "{path}" path
  else stripTrailingSlash origin ++ path

/-- JavaScript JSON values as produced by `JSON.parse`. Numbers are
modelled as integers (the repository's behaviours at issue never
involve fractional numbers; the parser below rejects them rather than
misreading them). -/
inductive JsValue where
  | null
  | bool (b : Bool)
  | num (n : Int)
  | str (s : String)
  | arr (elems : List JsValue)
  | obj (fields : List (String × JsValue))

/-- Is this the JSON value `null`? Models a JavaScript `=== null`
comparison on a `JSON.parse` result. -/
def JsValue.isNull : JsValue → Bool
  | JsValue.null => true
  | _ => false

/-- Skip JSON whitespace (space, tab, line feed, carriage return). -/
def skipWs : List Char → List Char
  | [] => []
  | c :: cs =>
    if c == ' ' || c == '\t' || c == '\n' || c == '\r' then skipWs cs
    else c :: cs

/-- Decode a single-character JSON string escape (`\u` escapes not
modelled). -/
def escDecode (e : Char) : Option Char :=
  if e == Char.ofNat 34 then some (Char.ofNat 34)
  else if e == '\\' then some '\\'
  else if e == '/' then some '/'
  else if e == 'n' then some '\n'
  else if e == 't' then some '\t'
  else if e == 'r' then some '\r'
  else if e == 'b' then some (Char.ofNat 8)
  else if e == 'f' then some (Char.ofNat 12)
  else none

/-- Parse the body of a JSON string after the opening quote, up to and
including the closing quote; returns the decoded characters and the
remaining input. -/
def parseStrChars : List Char → Option (List Char × List Char)
  | [] => none
  | c :: cs =>
    if c == Char.ofNat 34 then some ([], cs)
    else if c == '\\' then
      match cs with
      | [] => none
      | e :: cs2 =>
        match escDecode e with
        | none => none
        | some d =>
          match parseStrChars cs2 with
          | none => none
          | some (s, r) => some (d :: s, r)
    else
      match parseStrChars cs with
      | none => none
      | some (s, r) => some (c :: s, r)

/-- Accumulate a run of decimal digits into a natural number. -/
def digitsVal : List Char → Nat → Nat × List Char
  | [], acc => (acc, [])
  | c :: cs, acc =>
    if c.isDigit then digitsVal cs (acc * 10 + (c.toNat - 48))
    else (acc, c :: cs)

/-- After an integer literal, a dot or exponent marker would make it a
non-integer number, which this model rejects rather than misparses. -/
def numBadFollow : List Char → Bool
  | [] => false
  | c :: _ => c == '.' || c == 'e' || c == 'E'

/-- Parse a JSON integer literal (optional minus sign, digit run). -/
def parseNumFrom : List Char → Option (JsValue × List Char)
  | '-' :: cs =>
    (match cs with
     | c :: _ =>
       if c.isDigit then
         let r := digitsVal cs 0
         if numBadFollow r.2 then none
         else some (JsValue.num (-(Int.ofNat r.1)), r.2)
       else none
     | [] => none)
  | cs =>
    match cs with
    | c :: _ =>
      if c.isDigit then
        let r := digitsVal cs 0
        if numBadFollow r.2 then none
        else some (JsValue.num (Int.ofNat r.1), r.2)
      else none
    | [] => none

mutual

/-- Fuel-indexed recursive-descent parser for one JSON value,
modelling `JSON.parse` (numbers restricted to integers, `\u` escapes
not modelled). Returns the value and the remaining input. -/
def parseVal : Nat → List Char → Option (JsValue × List Char)
  | 0, _ => none
  | Nat.succ fuel, cs =>
    match skipWs cs with
    | [] => none
    | c :: rest =>
      if c == 'n' then
        if leadsWith ['u', 'l', 'l'] rest then some (JsValue.null, rest.drop 3)
        else none
      else if c == 't' then
        if leadsWith ['r', 'u', 'e'] rest then some (JsValue.bool true, rest.drop 3)
        else none
      else if c == 'f' then
        if leadsWith ['a', 'l', 's', 'e'] rest then some (JsValue.bool false, rest.drop 4)
        else none
      else if c == Char.ofNat 34 then
        match parseStrChars rest with
        | none => none
        | some (s, r) => some (JsValue.str (String.mk s), r)
      else if c == '-' || c.isDigit then parseNumFrom (c :: rest)
      else if c == '[' then
        match skipWs rest with
        | d :: r2 =>
          if d == ']' then some (JsValue.arr [], r2)
          else
            match parseElems fuel rest with
            | none => none
            | some (vs, r) => some (JsValue.arr vs, r)
        | [] => none
      else if c == Char.ofNat 123 then
        match skipWs rest with
        | d :: r2 =>
          if d == Char.ofNat 125 then some (JsValue.obj [], r2)
          else
            match parseFields fuel rest with
            | none => none
            | some (fs, r) => some (JsValue.obj fs, r)
        | [] => none
      else none

/-- Parse one or more comma-separated array elements followed by the
closing bracket. -/
def parseElems : Nat → List Char → Option (List JsValue × List Char)
  | 0, _ => none
  | Nat.succ fuel, cs =>
    match parseVal fuel cs with
    | none => none
    | some (v, r) =>
      match skipWs r with
      | c :: rest =>
        if c == ',' then
          match parseElems fuel rest with
          | none => none
          | some (vs, r2) => some (v :: vs, r2)
        else if c == ']' then some ([v], rest)
        else none
      | [] => none

/-- Parse one or more comma-separated `"key": value` object fields
followed by the closing brace. -/
def parseFields : Nat → List Char → Option (List (String × JsValue) × List Char)
  | 0, _ => none
  | Nat.succ fuel, cs =>
    match skipWs cs with
    | c :: rest =>
      if c == Char.ofNat 34 then
        match parseStrChars rest with
        | none => none
        | some (k, r1) =>
          match skipWs r1 with
          | c2 :: r2 =>
            if c2 == ':' then
              match parseVal fuel r2 with
              | none => none
              | some (v, r3) =>
                match skipWs r3 with
                | c3 :: r4 =>
                  if c3 == ',' then
                    match parseFields fuel r4 with
                    | none => none
                    | some (fs, r5) => some ((String.mk k, v) :: fs, r5)
                  else if c3 == Char.ofNat 125 then
                    some ([(String.mk k, v)], r4)
                  else none
                | [] => none
            else none
          | [] => none
      else none
    | [] => none

end

/-- `JSON.parse` on a whole string: parse one value, require only
whitespace afterwards; `none` models a thrown SyntaxError. -/
def jsonParse (t : String) : Option JsValue :=
  match parseVal (t.data.length + 2) t.data with
  | none => none
  | some (v, r) => if (skipWs r).isEmpty then some v else none

/-- Escape one character for JSON string output. -/
def escChar (c : Char) : String :=
  if c == Char.ofNat 34 then "\\\""
  else if c == '\\' then "\\\\"
  else if c == '\n' then "\\n"
  else if c == '\t' then "\\t"
  else if c == '\r' then "\\r"
  else String.mk [c]

/-- Serialize a string as a JSON string literal. -/
def quoteStr (s : String) : String :=
  "\"" ++ String.join (s.data.map escChar) ++ "\""

mutual

/-- `JSON.stringify` (no spacing argument), modelling the call at
part_000 line 165. -/
def stringifyV : JsValue → String
  | JsValue.null => "null"
  | JsValue.bool true => "true"
  | JsValue.bool false => "false"
  | JsValue.num n => toString n
  | JsValue.str s => quoteStr s
  | JsValue.arr xs => "[" ++ stringifyElems xs ++ "]"
  | JsValue.obj fs => "\x7b" ++ stringifyFields fs ++ "\x7d"

/-- Comma-separated serialization of array elements. -/
def stringifyElems : List JsValue → String
  | [] => ""
  | [x] => stringifyV x
  | x :: y :: rest => stringifyV x ++ "," ++ stringifyElems (y :: rest)

/-- Comma-separated serialization of object fields. -/
def stringifyFields : List (String × JsValue) → String
  | [] => ""
  | [(k, v)] => quoteStr k ++ ":" ++ stringifyV v
  | (k, v) :: f :: rest =>
    quoteStr k ++ ":" ++ stringifyV v ++ "," ++ stringifyFields (f :: rest)

end

/-- `safeJsonParse` of part_000 lines 22-24: `JSON.parse` result on
success, JavaScript `null` when parsing throws. A body that is the JSON
literal `null` and a body that fails to parse both yield `null`. -/
def safeJsonParse (text : String) : JsValue :=
  match jsonParse text with
  | some v => v
  | none => JsValue.null

/-- The fetch `Response.ok` flag: status in the inclusive range
200-299. -/
def jsOk (status : Nat) : Bool := decide (200 ≤ status) && decide (status < 300)

/-- The envelope object shape built at part_000 lines 143-161. -/
structure Envelope where
  ok : Bool
  status : Nat
  body_json : Option JsValue
  body_text : Option String
  headers : List (String × String)

/-- The `responsePayload` object built at part_000 lines 143-161 from
the upstream status, the upstream body decoded as UTF-8 text, and the
upstream headers: `ok` and `status` from the fetch response,
`body_json` set exactly when `safeJsonParse` returned non-null,
`body_text` set exactly otherwise, `headers` the upstream headers minus
the `HOP_BY_HOP` names. -/
def responsePayload (status : Nat) (text : String)
    (upHeaders : List (String × String)) : Envelope :=
  let parsed := safeJsonParse text
  { ok := jsOk status
    status := status
    body_json := if parsed.isNull then none else some parsed
    body_text := if parsed.isNull then some text else none
    headers := respHeadersGw upHeaders }

/-- The body actually passed to `res.send` at part_000 line 165:
`JSON.stringify(parsed)`, where `parsed = safeJsonParse(text)` — not
the serialized `responsePayload` envelope. -/
def sentBodyP0 (text : String) : String :=
  stringifyV (safeJsonParse text)

/-- The status set at part_000 line 165: fixed 200. -/
def sentStatusP0 : Nat := 200

/-- A JavaScript error as observed by the catch blocks: its `name` and
`message`. -/
structure JsError where
  name : String
  message : String

/-- JavaScript `String(err && err.message ? err.message : err)` for an
Error value: the message when non-empty, otherwise the error's name
(String(err) on an Error with an empty message yields its name). -/
def jsErrString (e : JsError) : String :=
  if e.message == "" then e.name else e.message

/-- An error response body: status plus the `error` code and optional
`detail` fields of the JSON object passed to `res.json`. -/
structure ErrResponse where
  status : Nat
  error : String
  detail : Option String
deriving DecidableEq

/-- Catch block of GwA (gateway.js lines 76-83): `AbortError` yields
504 with body `\x7b error: 'gateway_timeout' \x7d` — no `detail`
field — and anything else yields 502 with the stringified error message
as `detail`. -/
def catchGwA (e : JsError) : ErrResponse :=
  if e.name == "AbortError" then
    { status := 504, error := "gateway_timeout", detail := none }
  else
    { status := 502, error := "gateway_error", detail := some (jsErrString e) }

/-- Catch block shared by P0 (part_000 lines 166-175) and P1 (part_001
lines 157-165): `AbortError` yields 504 with
`detail: upstream timeout $\x7bTIMEOUT_MS\x7dms`, anything else 502
with the stringified error message as `detail`. -/
def catchP1 (timeoutMs : Nat) (e : JsError) : ErrResponse :=
  if e.name == "AbortError" then
    { status := 504, error := "gateway_timeout"
      detail := some ("upstream timeout " ++ toString timeoutMs ++ "ms") }
  else
    { status := 502, error := "gateway_error", detail := some (jsErrString e) }

/-- JavaScript `(req.method || 'GET').toUpperCase()`. -/
def jsMethodUp (m : String) : String :=
  jsToUpper (if m == "" then "GET" else m)

/-- What a handler decides before any network activity: answer the CORS
preflight locally with 204, answer the misconfiguration error locally,
or forward to a resolved upstream target. -/
inductive RouteResult where
  | preflight
  | misconfigured
  | forward (target : String)
deriving DecidableEq

/-- Pre-upstream control flow of GwA (gateway.js lines 24-56): no
OPTIONS branch at all — every method, the CORS preflight verb included,
proceeds to target resolution and the upstream fetch (subject only to
the `ORIGIN_URL` check). -/
def routeGwA (origin _method path : String) : RouteResult :=
  if origin == "" then RouteResult.misconfigured
  else RouteResult.forward (resolveTargetA origin path)

/-- Pre-upstream control flow of GwB (gateway.js lines 119-143):
OPTIONS is answered 204 before the `ORIGIN_URL` check and before target
resolution. `method` is the raw inbound method; the code uppercases it
first. -/
def routeGwB (origin method path : String) : RouteResult :=
  if jsMethodUp method == "OPTIONS" then RouteResult.preflight
  else if origin == "" then RouteResult.misconfigured
  else RouteResult.forward (resolveTargetB origin path)

/-- Pre-upstream control flow of P0 (part_000 lines 46-69): OPTIONS
answered 204 first, then the `ORIGIN_URL` check, then target
resolution. -/
def routeP0 (origin method path : String) : RouteResult :=
  if jsMethodUp method == "OPTIONS" then RouteResult.preflight
  else if origin == "" then RouteResult.misconfigured
  else RouteResult.forward (resolveTargetP01 origin path)

/-- Pre-upstream control flow of P1 (part_001 lines 52-73): same order
as P0. -/
def routeP1 (origin method path : String) : RouteResult :=
  if jsMethodUp method == "OPTIONS" then RouteResult.preflight
  else if origin == "" then RouteResult.misconfigured
  else RouteResult.forward (resolveTargetP01 origin path)

/-- An outbound request as handed to `fetch`: resolved URL, method,
sanitized headers, optional body. -/
structure OutboundReq where
  url : String
  method : String
  headers : List (String × String)
  body : Option ByteSeq
deriving DecidableEq

/-- The outbound request GwA builds (gateway.js lines 53-61): the fetch
body is the captured raw bytes whenever they are non-empty —
`rawBody && rawBody.length ? rawBody : undefined` — with no check of
the method; the method is `req.method` verbatim. -/
def outboundReqA (origin method path : String)
    (hs : List (String × String)) (raw : ByteSeq) : OutboundReq :=
  { url := resolveTargetA origin path
    method := method
    headers := forwardHeadersGw hs
    body := if raw.length != 0 then some raw else none }

/-- The fetch body option of P0 (part_000 lines 118-123):
`['GET', 'HEAD'].includes(method) ? undefined : bodyBuf`, where
`method` is the uppercased method and `bodyBuf` is the captured body or
JavaScript `null`. -/
def bodyOptP0 (method : String) (bodyBuf : Option ByteSeq) : Option ByteSeq :=
  if ["GET", "HEAD"].contains method then none else bodyBuf

/-- The fetch body option of P1 (part_001 lines 119-125):
`['GET', 'HEAD'].includes(method) ? undefined :
(bodyBuf && bodyBuf.length ? bodyBuf : undefined)`. -/
def bodyOptP1 (method : String) (buf : ByteSeq) : Option ByteSeq :=
  if ["GET", "HEAD"].contains method then none
  else if buf.length != 0 then some buf else none

/-- An outbound response as committed to the caller: status, headers,
body bytes. -/
structure OutResponse where
  status : Nat
  headers : List (String × String)
  body : ByteSeq
deriving DecidableEq

/-- Response reconstruction of GwA (gateway.js lines 64-75): copy the
upstream status, copy the upstream headers minus `HOP_BY_HOP`, then
`res.send` the upstream bytes — for every method; there is no HEAD
branch, so the method argument is unused. -/
def respToCallerA (_method : String) (upStatus : Nat)
    (upHeaders : List (String × String)) (upBytes : ByteSeq) : OutResponse :=
  { status := upStatus
    headers := respHeadersGw upHeaders
    body := upBytes }

/-- Response reconstruction of GwB (gateway.js lines 180-198): copy
status and filtered headers, then `res.end()` with no body when the
uppercased method is HEAD, otherwise send the upstream bytes. -/
def respToCallerB (method : String) (upStatus : Nat)
    (upHeaders : List (String × String)) (upBytes : ByteSeq) : OutResponse :=
  { status := upStatus
    headers := respHeadersGw upHeaders
    body := if jsMethodUp method == "HEAD" then [] else upBytes }

/-- Response reconstruction of P1 (part_001 lines 136-156): same shape
as GwB — status, filtered headers, empty body for HEAD, upstream bytes
otherwise. -/
def respToCallerP1 (method : String) (upStatus : Nat)
    (upHeaders : List (String × String)) (upBytes : ByteSeq) : OutResponse :=
  { status := upStatus
    headers := respHeadersGw upHeaders
    body := if jsMethodUp method == "HEAD" then [] else upBytes }

/-- A filtered header list contains no header with lowercased name `n`
whenever the filter predicate rules out every such header. -/
theorem hasHeaderName_filter_eq_false (q : String × String → Bool)
    (hs : List (String × String)) (n : String)
    (h : ∀ kv, q kv = true → (jsToLower kv.1 == n) = false) :
    hasHeaderName (hs.filter q) n = false := by
  induction hs with
  | nil => rfl
  | cons kv t ih =>
    rw [List.filter_cons]
    by_cases hq : q kv = true
    · simp only [hq, if_true, hasHeaderName, List.any_cons]
      simp only [hasHeaderName] at ih
      simp [h kv hq, ih]
    · simp only [Bool.not_eq_true] at hq
      simp only [hq, Bool.false_eq_true, if_false]
      exact ih

/-- C2 (as stated) is false on the response path: gateway.js lines
64-71 filter only the nine `HOP_BY_HOP` names, so a `Content-Length`
header supplied by the upstream is copied to the outbound response. -/
theorem c2_counterexample :
    hasHeaderName (respHeadersGw [("Content-Length", "5")]) "content-length" = true := rfl

/-- C2 amended: the outbound request carries no header named in
`HOP_BY_HOP` and no `content-length` (case-insensitively); the outbound
response carries no header named in `HOP_BY_HOP` — but `content-length`
from the upstream is not dropped on the response path. -/
theorem c2_amended (hs : List (String × String)) (n : String) :
    ((hopByHop.contains n || n == "content-length") = true →
      hasHeaderName (forwardHeadersGw hs) n = false) ∧
    (hopByHop.contains n = true →
      hasHeaderName (respHeadersGw hs) n = false) := by
  constructor
  · intro hn
    unfold forwardHeadersGw
    apply hasHeaderName_filter_eq_false
    intro kv hq
    by_contra hb
    rw [Bool.not_eq_false] at hb
    have hkn : jsToLower kv.1 = n := eq_of_beq hb
    have hq2 : (!(hopByHop.contains (jsToLower kv.1)
        || jsToLower kv.1 == "content-length"
        || jsToLower kv.1 == "host")) = true := hq
    rw [hkn] at hq2
    rw [Bool.or_eq_true] at hn
    rcases hn with hn | hn
    · rw [hn] at hq2
      simp at hq2
    · rw [hn] at hq2
      simp at hq2
  · intro hn
    unfold respHeadersGw
    apply hasHeaderName_filter_eq_false
    intro kv hq
    by_contra hb
    rw [Bool.not_eq_false] at hb
    have hkn : jsToLower kv.1 = n := eq_of_beq hb
    have hq2 : (!(hopByHop.contains (jsToLower kv.1))) = true := hq
    rw [hkn, hn] at hq2
    simp at hq2

/-- Witness for `c2_amended` at concrete headers. -/
theorem c2_witness :
    hasHeaderName (forwardHeadersGw [("Connection", "close"), ("Content-Length", "3")])
      "connection" = false ∧
    hasHeaderName (respHeadersGw [("Transfer-Encoding", "chunked")])
      "transfer-encoding" = false :=
  ⟨(c2_amended [("Connection", "close"), ("Content-Length", "3")] "connection").1 rfl,
   (c2_amended [("Transfer-Encoding", "chunked")] "transfer-encoding").2 rfl⟩

/-- C3 (as stated) is false for the resolver shared by part_000 and
part_001: for the placeholder-free, `.php`-suffixed default origin they
append the inbound path instead of using the template exactly. -/
theorem c3_counterexample :
    containsSubstr "https://awakiplayer.awaki.top/api_v34.php" "{path}" = false ∧
    hasFileSuffix "https://awakiplayer.awaki.top/api_v34.php".data = true ∧
    resolveTargetP01 "https://awakiplayer.awaki.top/api_v34.php" "/x"
      ≠ "https://awakiplayer.awaki.top/api_v34.php" :=
  ⟨rfl, rfl, by decide⟩

/-- C3 amended: only the second gateway.js handler implements the
heuristic — for a placeholder-free template with a file-like suffix or
a query string, its resolved target is the template exactly; the
part_000/part_001 resolver appends the inbound path+query even then. -/
theorem c3_amended (origin path : String)
    (h1 : containsSubstr origin "{path}" = false)
    (h2 : (hasFileSuffix origin.data || containsSubstr origin "?") = true) :
    resolveTargetB origin path = origin := by
  unfold resolveTargetB
  rw [h1, h2]
  simp

/-- Witness for `c3_amended` at the repository's default origin URL. -/
theorem c3_witness :
    resolveTargetB "https://awakiplayer.awaki.top/api_v34.php" "/x"
      = "https://awakiplayer.awaki.top/api_v34.php" :=
  c3_amended "https://awakiplayer.awaki.top/api_v34.php" "/x" rfl rfl

/-- C4 (as stated) is false for the first gateway.js handler: its
timeout response (gateway.js lines 76-83) is 504 with no `detail`
field at all, so it does not carry the configured timeout value. -/
theorem c4_counterexample :
    (catchGwA ⟨"AbortError", "x"⟩).status = 504 ∧
    (catchGwA ⟨"AbortError", "x"⟩).detail = none := ⟨rfl, rfl⟩

/-- C4 amended: in every variant a timed-out call (AbortError) yields
504 and any other failure yields 502 with the error's message as
detail — the two are never confused; the part_000/part_001 timeout
response carries `upstream timeout <TIMEOUT_MS>ms` as detail, while the
first gateway.js handler's timeout response has no detail field. -/
theorem c4_amended (t : Nat) (e : JsError) :
    (e.name = "AbortError" →
      catchP1 t e = ⟨504, "gateway_timeout",
        some ("upstream timeout " ++ toString t ++ "ms")⟩ ∧
      catchGwA e = ⟨504, "gateway_timeout", none⟩) ∧
    (e.name ≠ "AbortError" →
      catchP1 t e = ⟨502, "gateway_error", some (jsErrString e)⟩ ∧
      catchGwA e = ⟨502, "gateway_error", some (jsErrString e)⟩) := by
  constructor
  · intro h
    unfold catchP1 catchGwA
    rw [h]
    simp
  · intro h
    have hb : (e.name == "AbortError") = false := by
      simp only [beq_eq_false_iff_ne, ne_eq]
      exact h
    unfold catchP1 catchGwA
    rw [hb]
    simp

/-- Witness for `c4_amended`: a timeout with the default 15000 ms
configuration, and a DNS-style transport failure. -/
theorem c4_witness :
    catchP1 15000 ⟨"AbortError", ""⟩
      = ⟨504, "gateway_timeout", some "upstream timeout 15000ms"⟩ ∧
    catchGwA ⟨"TypeError", "fetch failed"⟩
      = ⟨502, "gateway_error", some "fetch failed"⟩ :=
  ⟨((c4_amended 15000 ⟨"AbortError", ""⟩).1 rfl).1,
   ((c4_amended 15000 ⟨"TypeError", "fetch failed"⟩).2 (by decide)).2⟩

/-- C5 (as stated) is false: for an upstream body that is the JSON
literal `null`, `safeJsonParse` returns `null` exactly as it does on a
parse failure, so the envelope sets the raw-text field and leaves the
parsed-JSON field unset — not distinct from a failed parse. -/
theorem c5_counterexample :
    (responsePayload 200 "null" []).body_json = none ∧
    (responsePayload 200 "null" []).body_text = some "null" ∧
    (responsePayload 200 "null" []).body_json ≠ some JsValue.null := by
  refine ⟨rfl, rfl, ?_⟩
  intro h
  rw [show (responsePayload 200 "null" []).body_json = none from rfl] at h
  exact Option.noConfusion h

/-- C5 amended: an upstream body of the JSON literal `null` is treated
the same as a parse failure — raw-text field set to the text `null`,
parsed-JSON field unset — because `safeJsonParse` returns `null` both
on failure and on a successful parse of `null`. -/
theorem c5_amended (st : Nat) (hs : List (String × String)) :
    (responsePayload st "null" hs).body_json = none ∧
    (responsePayload st "null" hs).body_text = some "null" := ⟨rfl, rfl⟩

/-- Witness for `c5_amended` at status 200 and no upstream headers. -/
theorem c5_witness : (responsePayload 200 "null" []).body_text = some "null" :=
  (c5_amended 200 []).2

/-- C1: part_000 builds the envelope (`responsePayload`, lines 143-161,
with `ok` false and the raw-text field `hello` for a non-JSON 404
upstream reply) but then sends `JSON.stringify(parsed)` with fixed
status 200 (line 165) — for the upstream body `hello` the caller
receives the four bytes `null`, not the envelope object. -/
theorem c1_code_divergence :
    sentStatusP0 = 200 ∧
    sentBodyP0 "hello" = "null" ∧
    (responsePayload 404 "hello" []).ok = false ∧
    (responsePayload 404 "hello" []).status = 404 ∧
    (responsePayload 404 "hello" []).body_text = some "hello" ∧
    (responsePayload 404 "hello" []).body_json = none :=
  ⟨rfl, rfl, rfl, rfl, rfl, rfl⟩

/-- C6 (as stated) is false for the first gateway.js handler: it has no
HEAD branch, so for a HEAD request it passes the upstream bytes to
`res.send` like for any other method. -/
theorem c6_counterexample :
    (respToCallerA "HEAD" 200 [] [104, 105]).body = [104, 105] ∧
    (respToCallerA "HEAD" 200 [] [104, 105]).body ≠ [] := ⟨rfl, by decide⟩

/-- C6 amended: the second gateway.js handler and part_001 end a HEAD
response with an empty body even when the upstream body is non-empty;
the first gateway.js handler sends the upstream bytes for every method,
HEAD included. -/
theorem c6_amended (st : Nat) (hs : List (String × String)) (bytes : ByteSeq) :
    (respToCallerB "HEAD" st hs bytes).body = [] ∧
    (respToCallerP1 "HEAD" st hs bytes).body = [] := ⟨rfl, rfl⟩

/-- Witness for `c6_amended` with a non-empty upstream body. -/
theorem c6_witness : (respToCallerB "HEAD" 200 [] [104]).body = [] :=
  (c6_amended 200 [] [104]).1

/-- C7 (as stated) is false for the first gateway.js handler: its fetch
options (lines 53-61) attach the captured bytes whenever they are
non-empty, with no method check, so a GET with captured bytes carries an
outbound body. -/
theorem c7_counterexample :
    (outboundReqA "https://awaki.top/awakisoftsgateway.php" "GET" "/" [] [55]).method
      = "GET" ∧
    (outboundReqA "https://awaki.top/awakisoftsgateway.php" "GET" "/" [] [55]).body
      = some [55] := ⟨rfl, rfl⟩

/-- C7 amended: in part_000 and part_001 the outbound body is absent
for the body-less read verbs GET and HEAD regardless of any captured
bytes; the first gateway.js handler forwards captured bytes for every
method. -/
theorem c7_amended (m : String) (raw : ByteSeq) (b : Option ByteSeq)
    (h : m = "GET" ∨ m = "HEAD") :
    bodyOptP1 m raw = none ∧ bodyOptP0 m b = none := by
  rcases h with h | h
  · subst h; exact ⟨rfl, rfl⟩
  · subst h; exact ⟨rfl, rfl⟩

/-- Witness for `c7_amended` with non-empty captured bytes. -/
theorem c7_witness :
    bodyOptP1 "GET" [9, 9] = none ∧ bodyOptP0 "HEAD" (some [1]) = none :=
  ⟨(c7_amended "GET" [9, 9] (some [1]) (Or.inl rfl)).1,
   (c7_amended "HEAD" [9, 9] (some [1]) (Or.inr rfl)).2⟩

/-- C8 (as stated) is false for the first gateway.js handler: it has no
OPTIONS branch, so an OPTIONS request runs the Target Resolver and is
forwarded to the upstream. -/
theorem c8_counterexample :
    routeGwA "https://awaki.top/awakisoftsgateway.php" "OPTIONS" "/"
      = RouteResult.forward "https://awaki.top/awakisoftsgateway.php/" := rfl

/-- C8 amended: in part_000, part_001 and the second gateway.js handler
an OPTIONS request is answered with 204 before the misconfiguration
check and before the Target Resolver, so it never produces an upstream
call; the first gateway.js handler forwards OPTIONS upstream. -/
theorem c8_amended (origin method path : String)
    (h : jsMethodUp method = "OPTIONS") :
    routeGwB origin method path = RouteResult.preflight ∧
    routeP0 origin method path = RouteResult.preflight ∧
    routeP1 origin method path = RouteResult.preflight := by
  unfold routeGwB routeP0 routeP1
  rw [h]
  simp

/-- Witness for `c8_amended` at an OPTIONS request. -/
theorem c8_witness :
    routeGwB "https://awaki.top/awakisoftsgateway.php" "OPTIONS" "/"
      = RouteResult.preflight :=
  (c8_amended "https://awaki.top/awakisoftsgateway.php" "OPTIONS" "/" rfl).1

/-- C9: the template substitution uses JavaScript `String.replace`,
whose replacement string undergoes GetSubstitution — a `$&` in the
inbound path+query expands to the matched token `\x7bpath\x7d` instead
of being copied verbatim, in both gateway.js and the part_000/part_001
resolver. -/
theorem c9_code_divergence :
    resolveTargetA "https://h/{path}" "/p?q=$&" = "https://h//p?q=\x7bpath\x7d" ∧
    resolveTargetA "https://h/{path}" "/p?q=$&" ≠ "https://h//p?q=$&" ∧
    resolveTargetP01 "https://h/{path}" "/p?q=$&" = "https://h//p?q=\x7bpath\x7d" :=
  ⟨rfl, by decide, rfl⟩

/-- C10: when the captured body is empty (zero bytes), the outbound
fetch is issued with no body entity at all — `undefined`, not a
present zero-length body — in the first gateway.js handler
(`rawBody && rawBody.length ? rawBody : undefined`) and in part_001. -/
theorem c10_empty_body_absent :
    (∀ (o m p : String) (hs : List (String × String)),
      (outboundReqA o m p hs []).body = none) ∧
    (∀ (m : String), bodyOptP1 m [] = none) := by
  constructor
  · intro o m p hs
    rfl
  · intro m
    unfold bodyOptP1
    by_cases h : ["GET", "HEAD"].contains m = true
    · rw [h]; simp
    · simp only [Bool.not_eq_true] at h
      rw [h]
      simp

/-- Witness for `c10_empty_body_absent` at a POST with empty capture. -/
theorem c10_witness :
    (outboundReqA "https://awaki.top/awakisoftsgateway.php" "POST" "/" [] []).body
      = none ∧
    bodyOptP1 "POST" [] = none :=
  ⟨c10_empty_body_absent.1 "https://awaki.top/awakisoftsgateway.php" "POST" "/" [],
   c10_empty_body_absent.2 "POST"⟩
